import Mathlib

/-!
Verification development for `fermi_helper.py`, a helper script that builds and
runs the Fermi HEP workflow with Docker/Singularity.

The embedding below translates the script's pure logic directly from the source:

* the four shell-script fragments (`setupscript`, `hermeticscript`, `runscript`,
  `intscript`) and `_make_script`;
* the jinja2 `dockerfile_template` and its rendering.  jinja2 is used with its
  default settings (`trim_blocks = False`, `lstrip_blocks = False`,
  `keep_trailing_newline = False`), so a `\x7b% if c %\x7d` / `\x7b% endif %\x7d` pair each
  standing on a line of its own renders to: one empty output line for the `if`
  tag position plus the body lines when `c` is truthy, and a single empty line
  for the whole construct when `c` is falsy (the tag text vanishes, the newline
  after each surviving tag remains).  We therefore model the rendering as a list
  of output lines (`dockerfileLines`) joined with a newline separator
  (`dockerfile_render`); the template source ends with a newline which jinja2
  drops (`keep_trailing_newline = False`), so the joined string is the exact
  rendered text.  A Python value is truthy in a jinja2 `if` when it is neither
  `None` nor the empty string (`pdTruthy`), and `\x7b\x7b pull_dependencies \x7d\x7d`
  interpolates `str` of the value (`pdStr`).
* the subprocess sequence of `main_build_docker_image` (`buildImageSteps`) with
  each `subprocess.run` call's argv, stdin, cwd and `check` flag, plus an
  execution semantics `execSteps` in which a non-zero exit of a step whose
  `check` flag is set aborts the remaining sequence (CalledProcessError
  propagation) while a non-zero exit of an unchecked step is ignored;
* the `singularity exec` argv of `main_run_singularity_image` and the keyword
  arguments the CLI dispatcher passes to it;
* the `tag` and `sif` argparse validators.  Filesystem facts (`Path.exists`)
  enter as explicit parameters; `Path.relative_to` on paths modelled as
  component lists succeeds exactly when the base's components are a prefix;
  `Path.suffix` follows pathlib: `name[i:]` for `i = name.rfind('.')` when
  `0 < i < len(name) - 1`, else the empty string (`lastDotIdx`, `pathSuffix`).
-/

namespace FermiHelper

/-- `setupscript` from fermi_helper.py (lines 140-145). -/
def setupscript : String :=
  "#ls -lah /.singularity.d/\n"
  ++ ". /etc/profile\n"
  ++ "#cat /.singularity.d/runscript -A\n"
  ++ "#set -euo pipefail\n"

/-- `hermeticscript` from fermi_helper.py (lines 148-173): environment bootstrap
and working-directory setup executed inside the container. -/
def hermeticscript : String :=
  "#ls -lah /.singularity.d/\n"
  ++ ". /etc/profile\n"
  ++ "#cat /.singularity.d/runscript -A\n"
  ++ "set -euo pipefail\n"
  ++ "DECAF_PREFIX=/opt/decaf/stage\n"
  ++ "DECAF_HENSON_PREFIX=$\x7bDECAF_PREFIX:?\x7d/examples/henson\n"
  ++ "FERMI_PREFIX=$\x7bDECAF_PREFIX:?\x7d/examples/fermi_hep\n"
  ++ "cd \"$(TMPDIR=/tmp mktemp -d)\"\n"
  ++ "tmpdir=$PWD\n"
  ++ "\n"
  ++ "cp -r \"$\x7bDECAF_PREFIX:?\x7d\" \"$\x7btmpdir:?\x7d\"\n"
  ++ "cd stage/examples/fermi_hep\n"
  ++ "echo $PWD\n"
  ++ "\n"
  ++ "mkdir conf\n"
  ++ "mv \"$\x7bFERMI_PREFIX:?\x7d/mb7tev.txt\" conf/\n"
  ++ "cp \"$\x7bFERMI_PREFIX:?\x7d/hep-fullWorkflow-inputPre.json\" ./decaf-henson.json\n"
  ++ "sed -ie \x27s!/home/oyildiz/decaf-henson/install!\x27\"$tmpdir/stage\"\x27!g\x27 ./decaf-henson.json\n"
  ++ "#sed -ie \x27s!\\./!\x27\"$\x7bFERMI_PREFIX:?\x7d/\"\x27!g\x27 ./decaf-henson.json\n"
  ++ "#cp \"$\x7bFERMI_PREFIX:?\x7d/hostfile_workflow.txt\" ./hostfile_workflow.txt\n"
  ++ "cp \"$\x7bDECAF_HENSON_PREFIX:?\x7d/python/decaf-henson_python\" ./decaf-henson_python\n"
  ++ "\n"
  ++ "LD_LIBRARY_PATH=$\x7bLD_LIBRARY_PATH:+$\x7bLD_LIBRARY_PATH:?\x7d:\x7d$\x7bDECAF_PREFIX:?three\x7d/lib\n"
  ++ "export DECAF_PREFIX LD_LIBRARY_PATH\n"

/-- `runscript` from fermi_helper.py (lines 176-178): the fixed parallel-launch
(mpirun) command. -/
def runscript : String :=
  "mpirun --hostfile hostfile_workflow.txt -np 4 ./decaf-henson_python\n"

/-- `intscript` from fermi_helper.py (lines 180-182): the interactive shell. -/
def intscript : String :=
  "exec bash\n"

/-- `_make_script` from fermi_helper.py (lines 296-305). -/
def make_script (interactive : Bool) : String :=
  setupscript ++ hermeticscript ++ (if interactive then intscript else runscript)

/-- Template line `RUN mkdir /opt/spack-environment \` opening the Spack
manifest (spack.yaml) creation instruction. -/
def spackManifestLine : String :=
  "RUN mkdir /opt/spack-environment \\"

/-- Template line running `spack install` on the manifest. -/
def spackInstallLine : String :=
  "RUN cd /opt/spack-environment && spack install && spack gc -y"

/-- Template line downloading the rivet-bootstrap script. -/
def rivetWgetLine : String :=
  "    wget https://phab.hepforge.org/source/rivetbootstraphg/browse/3.0.2/rivet-bootstrap?view=raw -O rivet-bootstrap && \\"

/-- Body lines of the `\x7b% if not pull_dependencies %\x7d` block of
`dockerfile_template` (fermi_helper.py lines 187-263, after `dedent`): the full
dependency-install instruction block. -/
def depLines : List String :=
  [ "# Build stage with Spack pre-installed and ready to be used",
    "FROM spack/ubuntu-bionic:latest as builder",
    "",
    "# What we want to install and how we want to install it",
    "# is specified in a manifest file (spack.yaml)",
    spackManifestLine,
    "&&  (echo \"spack:\" \\",
    "&&   echo \"  view: /opt/view\" \\",
    "&&   echo \"  specs:\" \\",
    "&&   echo \"  - boost\" \\",
    "&&   echo \"  - cmake\" \\",
    "&&   echo \"  - henson +mpi-wrappers +python ^mpich@3.3.2 ^python@3.8.2\" \\",
    "&&   echo \"  - py-h5py ^hdf5@1.10.2 ^mpich@3.3.2 ^python@3.8.2\" \\",
    "&&   echo \"  - py-scipy@1.3.3 ^python@3.8.2\" \\",
    "&&   echo \"  - autoconf\" \\",
    "&&   echo \"  - automake\" \\",
    "&&   echo \"  - hepmc@2.06.10\" \\",
    "&&   echo \"  - diy@master ^mpich@3.3.2\" \\",
    "&&   echo \"  config:\" \\",
    "&&   echo \"    install_tree: /opt/software\" \\",
    "&&   echo \"  concretization: together\") > /opt/spack-environment/spack.yaml",
    "",
    "# Install the software, remove unecessary deps",
    spackInstallLine,
    "",
    "RUN cd /opt/spack-environment && spack add pythia8 && spack install && spack gc -y",
    "",
    "## Strip all the binaries",
    "#RUN find -L /opt/view/* -type f -exec readlink -f \x27\x7b\x7d\x27 \\; | \\",
    "#    xargs file -i | \\",
    "#    grep \x27charset=binary\x27 | \\",
    "#    grep \x27x-executable\\|x-archive\\|x-sharedlib\x27 | \\",
    "#    awk -F: \x27\x7bprint $1\x7d\x27 | xargs strip -s",
    "",
    "# Modifications to the environment that are necessary to run",
    "RUN cd /opt/spack-environment && \\",
    "    spack env activate --sh -d . >> /etc/profile.d/z10_spack_environment.sh",
    "",
    "",
    "# Bare OS image to run the installed executables",
    "FROM ubuntu:18.04 AS dependencies",
    "",
    "RUN apt-get update && \\",
    "    apt-get install -y \\",
    "        build-essential \\",
    "        wget \\",
    "        gfortran \\",
    "    && \\",
    "    rm -rf /var/lib/apt/lists/*",
    "",
    "COPY --from=builder /opt/spack-environment /opt/spack-environment",
    "COPY --from=builder /opt/software /opt/software",
    "COPY --from=builder /opt/view /opt/view",
    "COPY --from=builder /etc/profile.d/z10_spack_environment.sh /etc/profile.d/z10_spack_environment.sh",
    "",
    "ADD apprentice-latest-nodata.tar.gz /opt",
    "RUN . /etc/profile && \\",
    "    python3.8 -m ensurepip && \\",
    "    python3.8 -m pip install virtualenv && \\",
    "    python3.8 -m virtualenv /opt/venv && \\",
    "    /opt/venv/bin/python -m pip install \\",
    "        networkx \\",
    "        cython \\",
    "        /opt/apprentice-latest \\",
    "    && \\",
    "    echo \x27. /opt/venv/bin/activate\x27 > /etc/profile.d/z15_python_environment.sh",
    "",
    "RUN . /etc/profile && \\",
    "    mkdir /opt/rivet && \\",
    "    cd /opt/rivet && \\",
    rivetWgetLine,
    "    chmod +x rivet-bootstrap && \\",
    "    \x7b RIVET_VERSION=2.7.2 YODA_VERSION=1.7.5 HEPMC_VERSION=2.06.09 FASTJET_VERSION=3.3.2 ./rivet-bootstrap || true; \x7d && \\",
    "    rm YODA-1.7.5/pyext/yoda/util.cpp && \\",
    "    RIVET_VERSION=2.7.2 YODA_VERSION=1.7.5 HEPMC_VERSION=2.06.09 FASTJET_VERSION=3.3.2 ./rivet-bootstrap && \\",
    "    echo \x27. /opt/rivet/local/rivetenv.sh\x27 > /etc/profile.d/z20_rivet_environment.sh",
    "" ]

/-- `FROM \x7b\x7b pull_dependencies \x7d\x7d AS dependencies` (template line 267). -/
def fromDepsLine (t : String) : String :=
  "FROM " ++ t ++ " AS dependencies"

/-- `COPY \x7b\x7b decaf_root \x7d\x7d /opt/decaf` (template line 277). -/
def copyDecafLine (dr : String) : String :=
  "COPY " ++ dr ++ " /opt/decaf"

/-- `ENV=docker ./go.sh cmake && \` (template line 286). -/
def goCmakeLine : String :=
  "    ENV=docker ./go.sh cmake && \\"

/-- `ENV=docker ./go.sh make` (template line 287). -/
def goMakeLine : String :=
  "    ENV=docker ./go.sh make"

/-- `ENTRYPOINT` line of the template (line 291). -/
def entrypointLine : String :=
  "ENTRYPOINT [\"/bin/bash\", \"--rcfile\", \"/etc/profile\"]"

/-- `CMD` line of the template (line 292). -/
def cmdLine : String :=
  "CMD [\"-l\"]"

/-- First lines of the final build stage (template lines 275-276). -/
def finalPre : List String :=
  [ "SHELL [\"/bin/bash\", \"--rcfile\", \"/etc/profile\", \"-l\", \"-c\"]",
    "WORKDIR /opt" ]

/-- Remaining fixed lines of the final build stage (template lines 278-287). -/
def finalPost : List String :=
  [ "WORKDIR /opt/decaf",
    "COPY go.sh docker.env.sh /opt/decaf/",
    "RUN sed -ie \x27/extern \"C\" void \\*(\\*dlsym(void \\*handle, const char \\*symbol))();/d\x27 /opt/view/include/Pythia8/PythiaStdlib.h && \\",
    "    rm -rf /opt/view/include/diy/thirdparty/fmt && \\",
    "    cp -r include/fmt /opt/view/include/diy/thirdparty/fmt",
    "",
    "RUN . /etc/profile && \\",
    "    . /opt/venv/bin/activate && \\",
    goCmakeLine,
    goMakeLine ]

/-- Content lines of the `\x7b% if not only_dependencies %\x7d` block (template
lines 275-287): copy the source tree in and run the two go.sh build commands. -/
def finalCore (dr : String) : List String :=
  finalPre ++ [ copyDecafLine dr ] ++ finalPost

/-- jinja2 truthiness of the `pull_dependencies` parameter: `None` and the
empty string are falsy, any other string is truthy. -/
def pdTruthy : Option String → Bool
  | none => false
  | some t => !(t == "")

/-- `str` of the `pull_dependencies` value as interpolated by
`\x7b\x7b pull_dependencies \x7d\x7d` (Python renders `None` as the string `None`;
that branch is unreachable because the interpolation sits inside the truthy
`if` block). -/
def pdStr : Option String → String
  | none => "None"
  | some t => t

/-- The line sequence rendered by `dockerfile_template.render` (fermi_helper.py
lines 185-293) with parameters `only_dependencies` (`od`),
`pull_dependencies` (`pd`) and `decaf_root` (`dr`).  Each `\x7b% if %\x7d` /
`\x7b% endif %\x7d` tag pair contributes the empty lines left behind by the
tags' trailing newlines, as described in the file header. -/
def dockerfileLines (od : Bool) (pd : Option String) (dr : String) : List String :=
  ( if pdTruthy pd then [ "" ] else [ "" ] ++ depLines ++ [ "" ] )
  ++ [ "" ]
  ++ ( if pdTruthy pd then [ "", fromDepsLine (pdStr pd), "" ] else [ "" ] )
  ++ [ "", "", "FROM dependencies AS final", "" ]
  ++ ( if od then [ "" ] else [ "", "" ] ++ finalCore dr ++ [ "", "" ] )
  ++ [ "", entrypointLine, cmdLine ]

/-- The rendered Dockerfile text: the line sequence joined by newlines (the
template's trailing newline is dropped by jinja2's default
`keep_trailing_newline = False`). -/
def dockerfile_render (od : Bool) (pd : Option String) (dr : String) : String :=
  String.intercalate "\n" (dockerfileLines od pd dr)

/-- One `subprocess.run` invocation: its argv, the bytes passed on stdin (the
`input=` keyword), the working directory (the `cwd=` keyword) and whether
`check=True` was passed (so that a non-zero exit raises CalledProcessError and
aborts the surrounding sequence). -/
structure Step where
  argv : List String
  stdin : Option String
  cwd : Option String
  check : Bool
deriving DecidableEq, Repr

/-- `git clone REPO ROOT` (fermi_helper.py lines 310-313): `check=True`. -/
def cloneStep (repo rootS : String) : Step :=
  ⟨[ "git", "clone", repo, rootS ], none, none, true⟩

/-- `git checkout BRANCH` run in the cloned tree (fermi_helper.py lines
315-318): no `check` keyword, so its exit status is ignored. -/
def checkoutStep (branch rootS : String) : Step :=
  ⟨[ "git", "checkout", branch ], none, some rootS, false⟩

/-- `docker build -t TAG -f - --target TARGET .` with the rendered Dockerfile
on stdin (fermi_helper.py lines 331-335): `check=True`. -/
def dockerBuildStep (tag target dockerfile : String) : Step :=
  ⟨[ "docker", "build", "-t", tag, "-f", "-", "--target", target, "." ],
    some dockerfile, none, true⟩

/-- `docker push TAG` (fermi_helper.py lines 338-341): `check=True`. -/
def dockerPushStep (tag : String) : Step :=
  ⟨[ "docker", "push", tag ], none, none, true⟩

/-- `Path.relative_to`: on paths modelled as component lists, `p.relative_to
base` returns the remaining components when `base`'s components are a prefix of
`p`'s, and raises ValueError (here: `none`) otherwise. -/
def relative_to (p base : List String) : Option (List String) :=
  if base.isPrefixOf p then some (p.drop base.length) else none

/-- `str` of a path given by its components (the empty relative path prints as
`.`). -/
def pathStr (parts : List String) : String :=
  if parts.isEmpty then "." else String.intercalate "/" parts

/-- `main_build_docker_image` (fermi_helper.py lines 308-341) as the sequence
of subprocess steps it issues.  `rootExists` is the value of
`decaf_root.exists()`; `cwd` and `root` are the component lists of the working
directory and of `decaf_root`.  The second component is `false` when
`decaf_root.relative_to(Path.cwd())` raises ValueError, which happens after the
optional clone/checkout but before `docker build`; it is `true` when the full
sequence is issued. -/
def buildImageSteps (cwd : List String) (rootExists : Bool) (root : List String)
    (repo branch tag : String) (od : Bool) (pd : Option String) :
    List Step × Bool :=
  let pre := if rootExists then [] else
    [ cloneStep repo (pathStr root), checkoutStep branch (pathStr root) ]
  match relative_to root cwd with
  | none => (pre, false)
  | some rel =>
    let dockerfile := dockerfile_render od pd (pathStr rel)
    let target := if od then "dependencies" else "final"
    (pre ++ [ dockerBuildStep tag target dockerfile ]
         ++ (if tag.data.contains '/' then [ dockerPushStep tag ] else []),
     true)

/-- Execution of a step sequence: `exits k` is the exit status of the `k`-th
issued step.  A step is always issued; if it exits non-zero and was run with
`check=True`, CalledProcessError aborts the remainder, while a non-zero exit
of an unchecked step is silently ignored.  Returns the steps actually issued. -/
def execSteps (exits : Nat → Nat) : Nat → List Step → List Step
  | _, [] => []
  | k, s :: rest =>
    if s.check = true ∧ exits k ≠ 0 then [ s ]
    else s :: execSteps exits (k + 1) rest

/-- The argv of the `singularity exec` call in `main_run_singularity_image`
(fermi_helper.py lines 365-371).  The image path is the hard-coded literal
`./decaf-fermi.sif`; the function has no `sif` parameter at all. -/
def main_run_singularity_image_argv (interactive : Bool) : List String :=
  [ "singularity", "exec", "./decaf-fermi.sif", "bash", "--rcfile",
    "/etc/profile", "-c", make_script interactive, "decaf-fermi-wrapper" ]

/-- The parameter names of `def main_run_singularity_image(interactive)`
(fermi_helper.py line 365). -/
def runSingularityHandlerParams : List String := [ "interactive" ]

/-- The argparse destinations the CLI passes to the handler via `main(**args)`
for the `run-singularity-image` subcommand (fermi_helper.py lines 427-440):
both `sif` and `interactive` are always present in the parsed namespace. -/
def runSingularityCliArgs : List String := [ "sif", "interactive" ]

/-- Python keyword-argument dispatch `f(**args)` succeeds only when every
supplied keyword is a parameter of `f` (otherwise TypeError). -/
def kwargsOk (params args : List String) : Bool :=
  args.all fun a => params.contains a

/-- The `tag` argparse validator (fermi_helper.py lines 384-388): at most one
`/` separator and at least one `:` in the string, otherwise the wrapped
AssertionError becomes an ArgumentTypeError (usage error) before any
subcommand handler runs. -/
def tagValid (s : String) : Bool :=
  decide (s.data.count '/' ≤ 1) && s.data.contains ':'

/-- `str.rfind('.')` on the character list of a file name: index of the last
`.`, or `none` when there is none. -/
def lastDotIdx : List Char → Option Nat
  | [] => none
  | c :: rest =>
    match lastDotIdx rest with
    | some j => some (j + 1)
    | none => if c = '.' then some 0 else none

/-- `PurePath.suffix` of a final path component, following pathlib:
`name[i:]` for `i = name.rfind('.')` when `0 < i < len(name) - 1`, else `''`
(so a hidden file such as `.sif` has no suffix). -/
def pathSuffix (name : List Char) : List Char :=
  match lastDotIdx name with
  | some i => if 0 < i ∧ i < name.length - 1 then name.drop i else []
  | none => []

/-- The `sif` argparse validator (fermi_helper.py lines 390-396) applied to the
resolved path, split into its parent directory and final component `name`:
the pathlib suffix of `name` must equal `.sif` and the parent directory must
exist (`fs` is the directory-existence predicate of the filesystem). -/
def sifValid (fs : String → Bool) (parent : String) (name : List Char) : Bool :=
  (pathSuffix name == ".sif".data) && fs parent

/-- A filesystem in which every directory exists (used for concrete
instantiations). -/
def fsAll : String → Bool := fun _ => true

/-- An exit-status assignment where every step fails. -/
def failAll : Nat → Nat := fun _ => 1

/-! ### Generic helper lemmas -/

theorem dataAppend (s t : String) : (s ++ t).data = s.data ++ t.data := by
  cases s; cases t; rfl

theorem take2_of_append (p m s : String) (c₁ c₂ : Char)
    (hp : p.data.take 2 = [ c₁, c₂ ]) :
    ((p ++ m) ++ s).data.take 2 = [ c₁, c₂ ] := by
  have hd : p.data = c₁ :: c₂ :: p.data.drop 2 := by
    conv_lhs => rw [← List.take_append_drop 2 p.data]
    rw [hp]
    rfl
  rw [dataAppend, dataAppend, List.append_assoc, hd]
  rfl

theorem ne_of_take2 (x y : String) (a b c d : Char)
    (hx : x.data.take 2 = [ a, b ]) (hy : y.data.take 2 = [ c, d ])
    (h : a ≠ c ∨ b ≠ d) : x ≠ y := by
  intro he
  subst he
  rw [hx] at hy
  injection hy with h1 h2
  injection h2 with h2 _
  rcases h with h | h
  · exact h h1
  · exact h h2

theorem ne_empty_of_take2 {x : String} {a b : Char}
    (hx : x.data.take 2 = [ a, b ]) : x ≠ "" := by
  intro he
  subst he
  rw [show ("" : String).data = [] from rfl] at hx
  exact absurd hx (by simp)

theorem getLast_of_append (p m s : String) (c : Char)
    (hs : s.data.getLast? = some c) :
    ((p ++ m) ++ s).data.getLast? = some c := by
  rw [dataAppend, dataAppend, List.getLast?_append, hs]
  rfl

theorem fromDepsLine_take2 (t : String) :
    (fromDepsLine t).data.take 2 = [ 'F', 'R' ] :=
  take2_of_append "FROM " t " AS dependencies" 'F' 'R' (by decide)

theorem copyDecafLine_take2 (dr : String) :
    (copyDecafLine dr).data.take 2 = [ 'C', 'O' ] :=
  take2_of_append "COPY " dr " /opt/decaf" 'C' 'O' (by decide)

theorem copyDecafLine_getLast (dr : String) :
    (copyDecafLine dr).data.getLast? = some 'f' :=
  getLast_of_append "COPY " dr " /opt/decaf" 'f' (by decide)

/-- No line of the dependency-install block ends with the character `f` (the
last character of the source-tree `COPY` line). -/
theorem depLines_getLast : ∀ l ∈ depLines, l.data.getLast? ≠ some 'f' := by
  decide

theorem pdTruthy_some {t : String} (ht : t ≠ "") : pdTruthy (some t) = true := by
  have hb : (t == "") = false := beq_eq_false_iff_ne.mpr ht
  simp [pdTruthy, hb]

/-- A line that differs from every fixed line and from the two parameter-holding
lines of the template does not occur in the rendered line sequence. -/
theorem not_mem_dockerfileLines (od : Bool) (pd : Option String) (dr x : String)
    (h0 : x ≠ "")
    (hdep : pdTruthy pd = false → x ∉ depLines)
    (hfrom : pdTruthy pd = true → x ≠ fromDepsLine (pdStr pd))
    (hmid : x ≠ "FROM dependencies AS final")
    (hfin : od = false → x ∉ finalPre ∧ x ≠ copyDecafLine dr ∧ x ∉ finalPost)
    (hent : x ≠ entrypointLine)
    (hcmd : x ≠ cmdLine) :
    x ∉ dockerfileLines od pd dr := by
  intro hx
  unfold dockerfileLines finalCore at hx
  cases hpd : pdTruthy pd with
  | false =>
    have hdep' := hdep hpd
    cases od with
    | true =>
      simp [hpd, List.mem_append, List.mem_cons] at hx
      tauto
    | false =>
      obtain ⟨hf1, hf2, hf3⟩ := hfin rfl
      simp [hpd, List.mem_append, List.mem_cons] at hx
      tauto
  | true =>
    have hfrom' := hfrom hpd
    cases od with
    | true =>
      simp [hpd, List.mem_append, List.mem_cons] at hx
      tauto
    | false =>
      obtain ⟨hf1, hf2, hf3⟩ := hfin rfl
      simp [hpd, List.mem_append, List.mem_cons] at hx
      tauto

theorem isPrefixOf_append_self (l₁ l₂ : List Char) :
    l₁.isPrefixOf (l₁ ++ l₂) = true :=
  ( List.isPrefixOf_iff_prefix).mpr ( List.prefix_append l₁ l₂)

theorem isSuffixOf_append_self (l₁ l₂ : List Char) :
    l₂.isSuffixOf (l₁ ++ l₂) = true :=
  ( List.isSuffixOf_iff_suffix).mpr (List.suffix_append l₁ l₂)

theorem clone_ne_checkout (repo rs branch : String) :
    [ "git", "clone", repo, rs ] ≠ [ "git", "checkout", branch ] := by
  intro h
  injection h with _ h2
  injection h2 with h3 _
  exact absurd h3 (by decide)

theorem build_ne_checkout (tag target df branch : String) :
    (dockerBuildStep tag target df).argv ≠ [ "git", "checkout", branch ] := by
  intro h
  injection h with h1 _
  exact absurd h1 (by decide)

theorem push_ne_checkout (tag branch : String) :
    [ "docker", "push", tag ] ≠ [ "git", "checkout", branch ] := by
  intro h
  injection h with h1 _
  exact absurd h1 (by decide)

theorem push_ne_clone (tag repo rs : String) :
    [ "docker", "push", tag ] ≠ [ "git", "clone", repo, rs ] := by
  intro h
  injection h with _ h2
  injection h2 with h3 _
  exact absurd h3 (by decide)

theorem push_ne_build (tag tag' target df : String) :
    [ "docker", "push", tag ] ≠ (dockerBuildStep tag' target df).argv := by
  intro h
  injection h with _ h2
  injection h2 with h3 _
  exact absurd h3 (by decide)

theorem pathSuffix_some (name : List Char) (i : Nat)
    (h : lastDotIdx name = some i) :
    pathSuffix name = if 0 < i ∧ i < name.length - 1 then name.drop i else [] := by
  unfold pathSuffix
  rw [h]

theorem pathSuffix_none (name : List Char) (h : lastDotIdx name = none) :
    pathSuffix name = [] := by
  unfold pathSuffix
  rw [h]

theorem lastDotIdx_append_sif (pre : List Char) :
    lastDotIdx (pre ++ ".sif".data) = some pre.length := by
  induction pre with
  | nil => rfl
  | cons c rest ih =>
    show lastDotIdx (c :: (rest ++ ".sif".data)) = some (rest.length + 1)
    unfold lastDotIdx
    rw [ih]

/-! ### Claim theorems -/

/-- C1: the `run-singularity-image` dispatch is broken: the CLI passes both the
`sif` and `interactive` destinations as keyword arguments, but
`main_run_singularity_image` accepts only `interactive`, so every invocation
raises TypeError; moreover the `singularity exec` argv carries the hard-coded
image path `./decaf-fermi.sif` whatever the (validated) `--sif` value was, so
the flag can never override the image path. -/
theorem run_singularity_sif_ignored :
    kwargsOk runSingularityHandlerParams runSingularityCliArgs = false ∧
    ∀ interactive : Bool,
      (main_run_singularity_image_argv interactive)[2]? = some "./decaf-fermi.sif" := by
  constructor
  · decide
  · intro interactive
    rfl

/-- C4: the Template Renderer is a pure, deterministic function of its three
parameters: rendering twice with identical `only_dependencies`,
`pull_dependencies` and `decaf_root` inputs yields byte-identical Dockerfile
text. -/
theorem render_deterministic (od₁ od₂ : Bool) (pd₁ pd₂ : Option String)
    (dr₁ dr₂ : String) (hod : od₁ = od₂) (hpd : pd₁ = pd₂) (hdr : dr₁ = dr₂) :
    dockerfile_render od₁ pd₁ dr₁ = dockerfile_render od₂ pd₂ dr₂ := by
  subst hod
  subst hpd
  subst hdr
  rfl

/-- C4 witness: determinism at a concrete input. -/
theorem render_deterministic_witness :
    dockerfile_render true none "decaf" = dockerfile_render true none "decaf" :=
  render_deterministic true true none none "decaf" "decaf" rfl rfl rfl

/-- C7: the tag validator accepts a string exactly when it has at most one `/`
and at least one `:`; the three example tags behave as the spec says. -/
theorem tag_validation_iff :
    (∀ s : String, tagValid s = true ↔ (s.data.count '/' ≤ 1 ∧ ':' ∈ s.data)) ∧
    tagValid "user/image:latest" = true ∧
    tagValid "a/b/c:latest" = false ∧
    tagValid "image" = false := by
  refine ⟨fun s => ?_, by decide, by decide, by decide⟩
  unfold tagValid
  rw [Bool.and_eq_true, decide_eq_true_iff]
  exact and_congr Iff.rfl List.elem_iff

/-- C7 witness: the characterization applied to the passing example. -/
theorem tag_validation_iff_witness :
    "user/image:latest".data.count '/' ≤ 1 ∧ ':' ∈ "user/image:latest".data :=
  (tag_validation_iff.1 "user/image:latest").mp (by decide)

/-- C5: when a (non-empty, hence truthy) pull-dependencies tag `t` is given,
the rendered line sequence contains the stage line `FROM t AS dependencies`
and contains neither the Spack manifest line, nor the `spack install` line,
nor the rivet-bootstrap download line of the dependency-install block. -/
theorem pull_dependencies_replaces_dep_stage (t dr : String) (od : Bool)
    (ht : t ≠ "") :
    fromDepsLine t ∈ dockerfileLines od (some t) dr ∧
    spackManifestLine ∉ dockerfileLines od (some t) dr ∧
    spackInstallLine ∉ dockerfileLines od (some t) dr ∧
    rivetWgetLine ∉ dockerfileLines od (some t) dr := by
  have hpd := pdTruthy_some ht
  refine ⟨?_, ?_, ?_, ?_⟩
  · unfold dockerfileLines
    rw [hpd]
    cases od <;> simp [pdStr, List.mem_append, List.mem_cons]
  · exact not_mem_dockerfileLines od (some t) dr spackManifestLine
      (by decide)
      (fun h => absurd (hpd.symm.trans h) (by decide))
      (fun _ => ne_of_take2 _ _ 'R' 'U' 'F' 'R' (by decide) (fromDepsLine_take2 _)
        (Or.inl (by decide)))
      (by decide)
      (fun _ => ⟨by decide,
        ne_of_take2 _ _ 'R' 'U' 'C' 'O' (by decide) (copyDecafLine_take2 dr)
          (Or.inl (by decide)),
        by decide⟩)
      (by decide)
      (by decide)
  · exact not_mem_dockerfileLines od (some t) dr spackInstallLine
      (by decide)
      (fun h => absurd (hpd.symm.trans h) (by decide))
      (fun _ => ne_of_take2 _ _ 'R' 'U' 'F' 'R' (by decide) (fromDepsLine_take2 _)
        (Or.inl (by decide)))
      (by decide)
      (fun _ => ⟨by decide,
        ne_of_take2 _ _ 'R' 'U' 'C' 'O' (by decide) (copyDecafLine_take2 dr)
          (Or.inl (by decide)),
        by decide⟩)
      (by decide)
      (by decide)
  · exact not_mem_dockerfileLines od (some t) dr rivetWgetLine
      (by decide)
      (fun h => absurd (hpd.symm.trans h) (by decide))
      (fun _ => ne_of_take2 _ _ ' ' ' ' 'F' 'R' (by decide) (fromDepsLine_take2 _)
        (Or.inl (by decide)))
      (by decide)
      (fun _ => ⟨by decide,
        ne_of_take2 _ _ ' ' ' ' 'C' 'O' (by decide) (copyDecafLine_take2 dr)
          (Or.inl (by decide)),
        by decide⟩)
      (by decide)
      (by decide)

/-- C5 witness: the property at a concrete tag and source path. -/
theorem pull_dependencies_replaces_dep_stage_witness :
    fromDepsLine "foo:1" ∈ dockerfileLines false (some "foo:1") "decaf" ∧
    spackManifestLine ∉ dockerfileLines false (some "foo:1") "decaf" ∧
    spackInstallLine ∉ dockerfileLines false (some "foo:1") "decaf" ∧
    rivetWgetLine ∉ dockerfileLines false (some "foo:1") "decaf" :=
  pull_dependencies_replaces_dep_stage "foo:1" "decaf" false (by decide)

/-- C6: with `only_dependencies` the rendered line sequence has no source-tree
`COPY` line and none of the two go.sh build-orchestration lines; without it the
final stage contains all three. -/
theorem only_dependencies_omits_final_stage (od : Bool) (pd : Option String)
    (dr : String) :
    (od = true →
      copyDecafLine dr ∉ dockerfileLines od pd dr ∧
      goCmakeLine ∉ dockerfileLines od pd dr ∧
      goMakeLine ∉ dockerfileLines od pd dr) ∧
    (od = false →
      copyDecafLine dr ∈ dockerfileLines od pd dr ∧
      goCmakeLine ∈ dockerfileLines od pd dr ∧
      goMakeLine ∈ dockerfileLines od pd dr) := by
  constructor
  · intro hod
    subst hod
    refine ⟨?_, ?_, ?_⟩
    · exact not_mem_dockerfileLines true pd dr (copyDecafLine dr)
        (ne_empty_of_take2 (copyDecafLine_take2 dr))
        (fun _ hmem => depLines_getLast _ hmem (copyDecafLine_getLast dr))
        (fun _ => ne_of_take2 _ _ 'C' 'O' 'F' 'R' (copyDecafLine_take2 dr)
          (fromDepsLine_take2 _) (Or.inl (by decide)))
        (ne_of_take2 _ _ 'C' 'O' 'F' 'R' (copyDecafLine_take2 dr) (by decide)
          (Or.inl (by decide)))
        (fun h => absurd h (by decide))
        (ne_of_take2 _ _ 'C' 'O' 'E' 'N' (copyDecafLine_take2 dr) (by decide)
          (Or.inl (by decide)))
        (ne_of_take2 _ _ 'C' 'O' 'C' 'M' (copyDecafLine_take2 dr) (by decide)
          (Or.inr (by decide)))
    · exact not_mem_dockerfileLines true pd dr goCmakeLine
        (by decide)
        (fun _ => by decide)
        (fun _ => ne_of_take2 _ _ ' ' ' ' 'F' 'R' (by decide) (fromDepsLine_take2 _)
          (Or.inl (by decide)))
        (by decide)
        (fun h => absurd h (by decide))
        (by decide)
        (by decide)
    · exact not_mem_dockerfileLines true pd dr goMakeLine
        (by decide)
        (fun _ => by decide)
        (fun _ => ne_of_take2 _ _ ' ' ' ' 'F' 'R' (by decide) (fromDepsLine_take2 _)
          (Or.inl (by decide)))
        (by decide)
        (fun h => absurd h (by decide))
        (by decide)
        (by decide)
  · intro hod
    subst hod
    refine ⟨?_, ?_, ?_⟩ <;>
      · unfold dockerfileLines finalCore finalPost
        cases hpd : pdTruthy pd <;> simp [hpd, List.mem_append, List.mem_cons]

/-- C6 witness: the only-dependencies direction at a concrete input. -/
theorem only_dependencies_omits_final_stage_witness :
    copyDecafLine "decaf" ∉ dockerfileLines true none "decaf" ∧
    goCmakeLine ∉ dockerfileLines true none "decaf" ∧
    goMakeLine ∉ dockerfileLines true none "decaf" :=
  (only_dependencies_omits_final_stage true none "decaf").1 rfl

set_option maxRecDepth 40000 in
/-- C10: the generated shell script always begins with the fixed
environment-bootstrap and working-directory prefix (`setupscript` followed by
`hermeticscript`), and ends in the interactive-shell invocation exactly when
the interactive flag is set and in the fixed mpirun parallel-launch command
otherwise. -/
theorem run_script_shape (interactive : Bool) :
    (setupscript ++ hermeticscript).data.isPrefixOf (make_script interactive).data = true ∧
    (interactive = true →
      intscript.data.isSuffixOf (make_script interactive).data = true ∧
      runscript.data.isSuffixOf (make_script interactive).data = false) ∧
    (interactive = false →
      runscript.data.isSuffixOf (make_script interactive).data = true) := by
  cases interactive with
  | false =>
    refine ⟨?_, fun h => absurd h (by decide), fun _ => ?_⟩
    · rw [show make_script false = (setupscript ++ hermeticscript) ++ runscript from rfl,
        dataAppend]
      exact isPrefixOf_append_self _ _
    · rw [show make_script false = (setupscript ++ hermeticscript) ++ runscript from rfl,
        dataAppend]
      exact isSuffixOf_append_self _ _
  | true =>
    refine ⟨?_, fun _ => ⟨?_, ?_⟩, fun h => absurd h (by decide)⟩
    · rw [show make_script true = (setupscript ++ hermeticscript) ++ intscript from rfl,
        dataAppend]
      exact isPrefixOf_append_self _ _
    · rw [show make_script true = (setupscript ++ hermeticscript) ++ intscript from rfl,
        dataAppend]
      exact isSuffixOf_append_self _ _
    · decide

/-- C10 witness: with the interactive flag, the script ends in `exec bash` and
not in the mpirun command. -/
theorem run_script_shape_witness :
    intscript.data.isSuffixOf (make_script true).data = true ∧
    runscript.data.isSuffixOf (make_script true).data = false :=
  (run_script_shape true).2.1 rfl

/-- C2: whenever the build sequence reaches the docker step (the source root is
under the working directory), `docker build` is invoked with target
`dependencies` exactly when only-dependencies is set and `final` otherwise, and
`docker push` is part of the sequence (as its last step) precisely when the tag
contains the registry separator `/`. -/
theorem build_target_and_push (cwd : List String) (rootExists : Bool)
    (root : List String) (repo branch tag : String) (od : Bool)
    (pd : Option String) (h : cwd.isPrefixOf root = true) :
    (buildImageSteps cwd rootExists root repo branch tag od pd).2 = true ∧
    [ "docker", "build", "-t", tag, "-f", "-", "--target",
        (if od then "dependencies" else "final"), "." ]
      ∈ (buildImageSteps cwd rootExists root repo branch tag od pd).1.map Step.argv ∧
    ([ "docker", "push", tag ]
        ∈ (buildImageSteps cwd rootExists root repo branch tag od pd).1.map Step.argv
      ↔ tag.data.contains '/' = true) ∧
    (tag.data.contains '/' = true →
      ((buildImageSteps cwd rootExists root repo branch tag od pd).1.map Step.argv).getLast?
        = some [ "docker", "push", tag ]) := by
  have hsteps : (buildImageSteps cwd rootExists root repo branch tag od pd).1 =
      (if rootExists then [] else
        [ cloneStep repo (pathStr root), checkoutStep branch (pathStr root) ])
      ++ [ dockerBuildStep tag (if od then "dependencies" else "final")
            (dockerfile_render od pd (pathStr (root.drop cwd.length))) ]
      ++ (if tag.data.contains '/' then [ dockerPushStep tag ] else []) := by
    simp [buildImageSteps, relative_to, h]
  have h2 : (buildImageSteps cwd rootExists root repo branch tag od pd).2 = true := by
    simp [buildImageSteps, relative_to, h]
  refine ⟨h2, ?_, ?_, ?_⟩
  · rw [hsteps]
    cases rootExists <;> cases hc : tag.data.contains '/' <;>
      simp [hc, cloneStep, checkoutStep, dockerBuildStep, dockerPushStep]
  · rw [hsteps]
    cases rootExists <;> cases hc : tag.data.contains '/' <;>
      simp [hc, cloneStep, checkoutStep, dockerBuildStep, dockerPushStep]
  · rw [hsteps]
    intro hc
    have hm : '/' ∈ tag.data := by simpa using hc
    cases rootExists <;>
      simp [hm, cloneStep, checkoutStep, dockerBuildStep, dockerPushStep]

/-- C2 witness: the only-dependencies end-to-end scenario with a registry tag:
target `dependencies` and a final push. -/
theorem build_target_and_push_witness :
    [ "docker", "build", "-t", "foo/bar:0.2.0-base", "-f", "-", "--target",
        "dependencies", "." ]
      ∈ (buildImageSteps [] true [ "decaf" ] "r" "b" "foo/bar:0.2.0-base" true
          none).1.map Step.argv ∧
    ((buildImageSteps [] true [ "decaf" ] "r" "b" "foo/bar:0.2.0-base" true
        none).1.map Step.argv).getLast? = some [ "docker", "push", "foo/bar:0.2.0-base" ] :=
  ⟨(build_target_and_push [] true [ "decaf" ] "r" "b" "foo/bar:0.2.0-base" true
      none (by decide)).2.1,
   (build_target_and_push [] true [ "decaf" ] "r" "b" "foo/bar:0.2.0-base" true
      none (by decide)).2.2.2 (by decide)⟩

/-- C3: in the build sequence every step is run with `check=True` except the
source-branch checkout; under the abort-on-checked-failure execution semantics,
a failing checkout alone stops nothing, while a failing clone (position 0) or a
failing docker build (position 2) aborts the remainder of the sequence. -/
theorem checkout_failure_not_fatal (cwd root : List String)
    (repo branch tag : String) (od : Bool) (pd : Option String)
    (exits : Nat → Nat) (h : cwd.isPrefixOf root = true) :
    (∀ s ∈ (buildImageSteps cwd false root repo branch tag od pd).1,
        s.check = false ↔ s.argv = [ "git", "checkout", branch ]) ∧
    ((∀ k, k ≠ 1 → exits k = 0) →
      execSteps exits 0 (buildImageSteps cwd false root repo branch tag od pd).1
        = (buildImageSteps cwd false root repo branch tag od pd).1) ∧
    (exits 0 ≠ 0 →
      execSteps exits 0 (buildImageSteps cwd false root repo branch tag od pd).1
        = (buildImageSteps cwd false root repo branch tag od pd).1.take 1) ∧
    (exits 0 = 0 → exits 2 ≠ 0 →
      execSteps exits 0 (buildImageSteps cwd false root repo branch tag od pd).1
        = (buildImageSteps cwd false root repo branch tag od pd).1.take 3) := by
  have hsteps : (buildImageSteps cwd false root repo branch tag od pd).1 =
      [ cloneStep repo (pathStr root), checkoutStep branch (pathStr root),
        dockerBuildStep tag (if od then "dependencies" else "final")
          (dockerfile_render od pd (pathStr (root.drop cwd.length))) ]
      ++ (if tag.data.contains '/' then [ dockerPushStep tag ] else []) := by
    simp [buildImageSteps, relative_to, h]
  rw [hsteps]
  refine ⟨?_, ?_, ?_, ?_⟩
  · intro s hs
    cases hc : tag.data.contains '/' <;> rw [hc] at hs <;> simp at hs
    · rcases hs with rfl | rfl | rfl
      · constructor
        · intro h1
          simp [cloneStep] at h1
        · intro h1
          exact absurd h1 (clone_ne_checkout repo (pathStr root) branch)
      · simp [checkoutStep]
      · constructor
        · intro h1
          simp [dockerBuildStep] at h1
        · intro h1
          exact absurd h1 (build_ne_checkout tag _ _ branch)
    · rcases hs with rfl | rfl | rfl | rfl
      · constructor
        · intro h1
          simp [cloneStep] at h1
        · intro h1
          exact absurd h1 (clone_ne_checkout repo (pathStr root) branch)
      · simp [checkoutStep]
      · constructor
        · intro h1
          simp [dockerBuildStep] at h1
        · intro h1
          exact absurd h1 (build_ne_checkout tag _ _ branch)
      · constructor
        · intro h1
          simp [dockerPushStep] at h1
        · intro h1
          exact absurd h1 (push_ne_checkout tag branch)
  · intro hk
    have e0 := hk 0 (by decide)
    have e2 := hk 2 (by decide)
    have e3 := hk 3 (by decide)
    cases hc : tag.data.contains '/' <;>
      simp [hc, execSteps, e0, e2, e3, cloneStep, checkoutStep, dockerBuildStep,
        dockerPushStep]
  · intro h0
    cases hc : tag.data.contains '/' <;>
      simp [hc, execSteps, h0, cloneStep]
  · intro h0 hb
    cases hc : tag.data.contains '/' <;>
      simp [hc, execSteps, h0, hb, cloneStep, checkoutStep, dockerBuildStep]

/-- C3 witness: with every exit status failing, execution stops right after the
clone step. -/
theorem checkout_failure_not_fatal_witness :
    execSteps failAll 0 (buildImageSteps [] false [ "decaf" ] "r" "b" "t:1"
        false none).1
      = (buildImageSteps [] false [ "decaf" ] "r" "b" "t:1" false none).1.take 1 :=
  (checkout_failure_not_fatal [] [ "decaf" ] "r" "b" "t:1" false none failAll
    (by decide)).2.2.1 (by decide)

/-- C9: when the source root is not a descendant of the working directory,
`Path.relative_to` raises before the docker step in every dependency mode:
the result flag is `false` and no issued step invokes docker. -/
theorem root_outside_cwd_aborts (cwd : List String) (rootExists : Bool)
    (root : List String) (repo branch tag : String) (od : Bool)
    (pd : Option String) (h : cwd.isPrefixOf root = false) :
    (buildImageSteps cwd rootExists root repo branch tag od pd).2 = false ∧
    ∀ s ∈ (buildImageSteps cwd rootExists root repo branch tag od pd).1,
      s.argv.head? ≠ some "docker" := by
  have hres : buildImageSteps cwd rootExists root repo branch tag od pd =
      ((if rootExists then [] else
        [ cloneStep repo (pathStr root), checkoutStep branch (pathStr root) ]),
       false) := by
    simp [buildImageSteps, relative_to, h]
  rw [hres]
  refine ⟨rfl, ?_⟩
  cases rootExists with
  | true =>
    intro s hs
    simp at hs
  | false =>
    intro s hs
    simp at hs
    rcases hs with rfl | rfl
    · simp [cloneStep]
    · simp [checkoutStep]

/-- C9 witness: a root outside the working directory, in only-dependencies
mode, yields the aborted result and no docker invocation. -/
theorem root_outside_cwd_aborts_witness :
    (buildImageSteps [ "a" ] true [ "b" ] "r" "br" "t:1" true none).2 = false ∧
    ∀ s ∈ (buildImageSteps [ "a" ] true [ "b" ] "r" "br" "t:1" true none).1,
      s.argv.head? ≠ some "docker" :=
  root_outside_cwd_aborts [ "a" ] true [ "b" ] "r" "br" "t:1" true none (by decide)

/-- C8 counterexample: the resolved name `.sif` ends in `.sif` and its parent
directory exists, yet the validator rejects it, because the pathlib suffix of a
hidden file is empty (`rfind('.') = 0` fails the `0 < i` test).  So "accepts
iff the resolved path ends in `.sif` and the parent exists" is false as
stated. -/
theorem sif_validation_hidden_file_counterexample :
    sifValid fsAll "/" ( ".sif".data ) = false ∧
    List.isSuffixOf ( ".sif".data ) ( ".sif".data ) = true ∧
    fsAll "/" = true := by
  refine ⟨?_, by decide, rfl⟩
  decide

/-- C8 (amended): the validator accepts exactly when the resolved name ends in
`.sif` with at least one character before the dot (length at least 5, ruling
out the bare hidden-file name `.sif`) and the parent directory exists. -/
theorem sif_validation_characterization (fs : String → Bool) (parent : String)
    (name : String) :
    sifValid fs parent name.data = true ↔
      (List.isSuffixOf ( ".sif".data ) name.data = true ∧
        5 ≤ name.data.length ∧ fs parent = true) := by
  unfold sifValid
  rw [Bool.and_eq_true]
  constructor
  · rintro ⟨h1, h2⟩
    have h1' : pathSuffix name.data = ".sif".data := eq_of_beq h1
    cases hld : lastDotIdx name.data with
    | none =>
      rw [pathSuffix_none _ hld] at h1'
      exact absurd h1' (by decide)
    | some i =>
      rw [pathSuffix_some _ _ hld] at h1'
      by_cases hg : 0 < i ∧ i < name.data.length - 1
      · rw [if_pos hg] at h1'
        have hlen4 : name.data.length - i = 4 := by
          have hlen := congrArg List.length h1'
          rw [List.length_drop] at hlen
          exact hlen.trans (by decide)
        refine ⟨?_, by omega, h2⟩
        exact ( List.isSuffixOf_iff_suffix).mpr
          ⟨name.data.take i, by rw [← h1']; exact List.take_append_drop i name.data⟩
      · rw [if_neg hg] at h1'
        exact absurd h1' (by decide)
  · rintro ⟨hs, hlen, hfs⟩
    obtain ⟨pre, hpre⟩ := ( List.isSuffixOf_iff_suffix).mp hs
    have hplen : name.data.length = pre.length + 4 := by
      rw [← hpre, List.length_append]
      rfl
    have hld : lastDotIdx name.data = some pre.length := by
      rw [← hpre]
      exact lastDotIdx_append_sif pre
    refine ⟨?_, hfs⟩
    rw [pathSuffix_some _ _ hld, if_pos (⟨by omega, by omega⟩ : 0 < pre.length ∧
      pre.length < name.data.length - 1)]
    rw [← hpre, List.drop_left]
    simp

/-- C8 witness: the amended characterization accepts `out.sif` under an
existing parent. -/
theorem sif_validation_characterization_witness :
    sifValid fsAll "/home" ( "out.sif".data ) = true :=
  (sif_validation_characterization fsAll "/home" "out.sif").mpr
    ⟨by decide, by decide, rfl⟩

end FermiHelper
